import Mathlib

/-!
# Verification of the `BaseDatabaseSchemaEditor` DDL engine

A shallow embedding of `django/db/backends/schema.py`: the schema-editor
session state, the statement templates, `column_sql`, `create_model`,
`add_field`, `remove_field`, `alter_field`, `_create_index_name` and
`_constraint_names`, together with theorems about statement ordering,
deferred-statement handling, error behaviour and identifier naming.

Emitted SQL statements are represented by the inductive `Stmt`, one
constructor per SQL template attribute of the class, carrying exactly the
substituted template fields.  `execute(sql, params)` appends a
`(Stmt, params)` pair to the session trace: `collected_sql` in collect
mode, `executed_sql` otherwise (in the source, collect mode renders the
statement to a string with `_quote_parameter`; here the statement and its
parameters are kept structured).

Platform functions that the source calls but does not define (Python's
builtin `hash` on a pair of strings, `hashlib.md5(...).hexdigest()`, the
backend's `quote_name`, `tablespace_sql` and `autoinc_sql`, and the
introspection `get_constraints`) are fields of the `DbEnv` environment.
-/

namespace DjangoSchema

/-! ## Python-style string helpers (kernel-friendly, via `String.data`) -/

/-- Length of a string as the length of its character list. -/
def strLen (s : String) : Nat := s.data.length

/-- `s[:n]` for a non-negative bound. -/
def strTake (n : Nat) (s : String) : String := String.mk (s.data.take n)

/-- `s[1:]`. -/
def strDropFirst (s : String) : String := String.mk s.data.tail

/-- `s[:-1]`. -/
def strDropLast (s : String) : String := String.mk s.data.dropLast

/-- First character, if any (`s[0]` in the source, which assumes nonempty). -/
def strHead? (s : String) : Option Char := s.data.head?

/-- `s.replace(c, '')` for a single character `c`. -/
def pyReplaceDrop (c : Char) (s : String) : String :=
  String.mk (s.data.filter (fun x => x ≠ c))

/-- `s.replace(a, b)` for single characters. -/
def pyReplaceChar (a b : Char) (s : String) : String :=
  String.mk (s.data.map (fun x => if x = a then b else x))

/-- Python slice `s[:k]` where `k` may be negative (`s[:-n]` drops the last
`n` characters). -/
def pySliceTo (s : String) (k : Int) : String :=
  if k < 0 then String.mk (s.data.take (s.data.length - k.natAbs))
  else String.mk (s.data.take k.toNat)

/-- `'%x' % n`: lowercase hexadecimal rendering of a natural number. -/
def hexStr (n : Nat) : String := String.mk (Nat.toDigits 16 n)

/-- Does the string start with the given character (`s[0] == c`)? -/
def strHeadIs (c : Char) (s : String) : Bool :=
  match s.data with
  | [] => false
  | x :: _ => x = c

/-- Does the string start with a decimal digit (`s[0].isdigit()`)?  The
source indexes `s[0]` unguarded; an empty string here is only reachable
with a zero identifier-length limit. -/
def strHeadIsDigit (s : String) : Bool :=
  match s.data with
  | [] => false
  | x :: _ => x.isDigit

/-! ## Statements: one constructor per SQL template of the editor -/

/-- A single column-change fragment used inside
`ALTER TABLE %(table)s %(changes)s` (`sql_alter_column_type`,
`sql_alter_column_null`, `sql_alter_column_not_null`,
`sql_alter_column_default`, `sql_alter_column_no_default`). -/
inductive ColChange where
  /-- `ALTER COLUMN %(column)s TYPE %(type)s` -/
  | typeChange (column type_ : String)
  /-- `ALTER COLUMN %(column)s DROP NOT NULL` -/
  | dropNotNull (column : String)
  /-- `ALTER COLUMN %(column)s SET NOT NULL` -/
  | setNotNull (column : String)
  /-- `ALTER COLUMN %(column)s SET DEFAULT %(default)s` -/
  | setDefault (column default : String)
  /-- `ALTER COLUMN %(column)s DROP DEFAULT` -/
  | dropDefault (column : String)
deriving DecidableEq, Repr

/-- One emitted DDL statement; constructors mirror the `sql_*` template
class attributes, carrying the values substituted into the template.
`alterColumn` carries the list of fragments joined by `", "` when the
backend combines alters (a singleton list otherwise). -/
inductive Stmt where
  /-- `CREATE TABLE %(table)s (%(definition)s)` -/
  | createTable (table definition : String)
  /-- `ALTER TABLE %(old_table)s RENAME TO %(new_table)s` -/
  | renameTable (old_table new_table : String)
  /-- `ALTER TABLE %(table)s SET TABLESPACE %(new_tablespace)s` -/
  | retablespace (table new_tablespace : String)
  /-- `DROP TABLE %(table)s CASCADE` -/
  | deleteTable (table : String)
  /-- `ALTER TABLE %(table)s ADD COLUMN %(column)s %(definition)s` -/
  | createColumn (table column definition : String)
  /-- `ALTER TABLE %(table)s DROP COLUMN %(column)s CASCADE` -/
  | deleteColumn (table column : String)
  /-- `ALTER TABLE %(table)s %(changes)s` -/
  | alterColumn (table : String) (changes : List ColChange)
  /-- `ALTER TABLE %(table)s RENAME COLUMN %(old_column)s TO %(new_column)s` -/
  | renameColumn (table old_column new_column : String)
  /-- `ALTER TABLE %(table)s ADD CONSTRAINT %(name)s CHECK (%(check)s)` -/
  | createCheck (table name chk : String)
  /-- `ALTER TABLE %(table)s DROP CONSTRAINT %(name)s` (`sql_delete_check`) -/
  | deleteCheck (table name : String)
  /-- `ALTER TABLE %(table)s ADD CONSTRAINT %(name)s UNIQUE (%(columns)s)` -/
  | createUnique (table name columns : String)
  /-- `ALTER TABLE %(table)s DROP CONSTRAINT %(name)s` (`sql_delete_unique`) -/
  | deleteUnique (table name : String)
  /-- `ALTER TABLE %(table)s ADD CONSTRAINT %(name)s FOREIGN KEY (%(column)s)
  REFERENCES %(to_table)s (%(to_column)s) DEFERRABLE INITIALLY DEFERRED` -/
  | createFk (table name column to_table to_column : String)
  /-- `ALTER TABLE %(table)s DROP CONSTRAINT %(name)s` (`sql_delete_fk`) -/
  | deleteFk (table name : String)
  /-- `CREATE INDEX %(name)s ON %(table)s (%(columns)s)%(extra)s` -/
  | createIndex (name table columns extra : String)
  /-- `DROP INDEX %(name)s` -/
  | deleteIndex (name : String)
  /-- `ALTER TABLE %(table)s ADD CONSTRAINT %(name)s PRIMARY KEY (%(columns)s)` -/
  | createPk (table name columns : String)
  /-- `ALTER TABLE %(table)s DROP CONSTRAINT %(name)s` (`sql_delete_pk`) -/
  | deletePk (table name : String)
  /-- Backend-supplied raw SQL (the strings returned by `ops.autoinc_sql`). -/
  | raw (sql : String)
deriving DecidableEq, Repr

/-- A trace entry: the statement and the parameter list passed to
`execute(sql, params)`. -/
abbrev TraceEntry := Stmt × List String

/-! ## Data model: fields, models, introspected constraints -/

/-- A foreign-key relation on a field, with the target resolved to
`(rel.to._meta.db_table, rel.to._meta.get_field(rel.field_name).column)`
as the source does at each statement build. -/
structure Rel where
  to_table : String
  to_column : String
deriving DecidableEq, Repr

/-- One element of `field.model._meta.get_all_related_objects()`: another
model holding a foreign key that references this model.  Carries the
referencing model's table, the referencing field's column and its
`db_parameters['type']`. -/
structure RelatedObject where
  model_table : String
  field_column : String
  field_type : String
deriving DecidableEq, Repr

/-- A column-backed field descriptor.  `db_type`/`db_check` are the
`db_parameters(connection)` entries (`db_type = none` for a field with no
column).  `default_val` is the value `get_default()` yields when
`has_default()` (callables already invoked; the source calls them at each
statement build).  `default_not_none` models `field.default is not None`
(in the source an absent default is the sentinel `NOT_PROVIDED`, which is
not `None`).  `related_objects` is
`field.model._meta.get_all_related_objects()`. -/
structure Field where
  column : String
  db_type : Option String
  db_check : Option String
  null : Bool
  unique : Bool
  primary_key : Bool
  db_index : Bool
  rel : Option Rel
  has_default : Bool
  default_val : Option String
  default_not_none : Bool
  blank : Bool
  empty_strings_allowed : Bool
  db_tablespace : String
  is_auto_field : Bool
  related_objects : List RelatedObject
deriving DecidableEq, Repr

/-- A model descriptor.  `local_many_to_many` carries, for each local
many-to-many field, the through model (`field.rel.through`) and its
`_meta.auto_created` flag.  `fields_by_name` resolves
`_meta.get_field_by_name(name)[0].column` (the source raises on a missing
name; lookup failures here default to the name itself and are never
exercised). -/
inductive Model where
  | mk
    (db_table : String)
    (db_tablespace : String)
    (local_fields : List Field)
    (unique_together : List (List String))
    (index_together : List (List String))
    (fields_by_name : List (String × String))
    (local_many_to_many : List (Model × Bool))

/-- `model._meta.db_table`. -/
def Model.db_table : Model → String
  | .mk t _ _ _ _ _ _ => t

/-- `model._meta.db_tablespace`. -/
def Model.db_tablespace : Model → String
  | .mk _ ts _ _ _ _ _ => ts

/-- `model._meta.local_fields`. -/
def Model.local_fields : Model → List Field
  | .mk _ _ fs _ _ _ _ => fs

/-- `model._meta.unique_together` (doubly-nested field-name lists). -/
def Model.unique_together : Model → List (List String)
  | .mk _ _ _ ut _ _ _ => ut

/-- `model._meta.index_together`. -/
def Model.index_together : Model → List (List String)
  | .mk _ _ _ _ it _ _ => it

/-- The name-to-column resolution backing `get_field_by_name`. -/
def Model.fields_by_name : Model → List (String × String)
  | .mk _ _ _ _ _ fb _ => fb

/-- `model._meta.local_many_to_many`, as `(through model, auto_created)`. -/
def Model.local_many_to_many : Model → List (Model × Bool)
  | .mk _ _ _ _ _ _ ms => ms

/-- `model._meta.get_field_by_name(name)[0].column`. -/
def Model.fieldColumn (m : Model) (name : String) : String :=
  match m.fields_by_name.lookup name with
  | some c => c
  | none => name

/-- One introspected constraint record from
`introspection.get_constraints`: its column list and kind flags. -/
structure ConstraintInfo where
  columns : List String
  unique : Bool
  primary_key : Bool
  index : Bool
  foreign_key : Bool
  chk : Bool
deriving DecidableEq, Repr

/-! ## Connection environment -/

/-- The connection/backend environment: feature-trait flags, dialect
limits, and the platform functions the editor calls.  `pyHashAbs a b`
stands for `abs(hash((a, b)))` (Python's builtin hash of a pair of
strings) and `md5hex` for `hashlib.md5(force_bytes(s)).hexdigest()`. -/
structure DbEnv where
  supports_foreign_keys : Bool
  supports_combined_alters : Bool
  connection_persists_old_columns : Bool
  interprets_empty_strings_as_nulls : Bool
  supports_tablespaces : Bool
  max_index_name_length : Nat
  max_name_length : Nat
  quote_name : String → String
  tablespace_sql : String → String
  autoinc_sql : String → String → List String
  get_constraints : String → List (String × ConstraintInfo)
  pyHashAbs : String → String → Nat
  md5hex : String → String

/-! ## Editor session state -/

/-- The live schema-change session: the collect flag, the trace of
`execute` calls (`collected_sql` in collect mode, `executed_sql`
otherwise) and the accumulating `deferred_sql` list (`__enter__` starts
it empty; deferred statements carry no parameters). -/
structure EditorState where
  collect_sql : Bool
  collected_sql : List TraceEntry
  executed_sql : List TraceEntry
  deferred_sql : List Stmt
deriving DecidableEq, Repr

/-- `__enter__`: a fresh session (`deferred_sql = []`; the wrapping
`atomic` transaction produces no DDL trace entries). -/
def startSession (collect : Bool) : EditorState :=
  { collect_sql := collect, collected_sql := [], executed_sql := [], deferred_sql := [] }

/-- Append trace entries to the side of the state `execute` writes to. -/
def appendEntries (st : EditorState) (l : List TraceEntry) : EditorState :=
  if st.collect_sql then { st with collected_sql := st.collected_sql ++ l }
  else { st with executed_sql := st.executed_sql ++ l }

/-- `execute(sql, params)`.  In collect mode the source appends the
parameter-interpolated string plus `";"` to `collected_sql`; here the
statement/parameter pair is kept structured. -/
def execute (st : EditorState) (s : Stmt) (params : List String) : EditorState :=
  appendEntries st [(s, params)]

/-- Append statements to `deferred_sql`. -/
def deferStmts (st : EditorState) (l : List Stmt) : EditorState :=
  { st with deferred_sql := st.deferred_sql ++ l }

/-- `__exit__(exc_type, ...)`: on a clean exit every deferred statement is
executed in insertion order (with no parameters); on an error exit none
is (the wrapping transaction's rollback emits no DDL). -/
def exitSession (errored : Bool) (st : EditorState) : EditorState :=
  if errored then st
  else st.deferred_sql.foldl (fun s sql => execute s sql []) st

/-- The sequence of `execute` calls so far: `collected_sql` in collect
mode, the cursor executions otherwise. -/
def EditorState.trace (st : EditorState) : List TraceEntry :=
  if st.collect_sql then st.collected_sql else st.executed_sql

/-! ## `_constraint_names` -/

/-- `_constraint_names(model, column_names, unique, primary_key, index,
foreign_key, check)`: filter the introspected constraints of the model's
table.  An empty `column_names` list is normalized to no column filter
(the source's `if column_names else None` truthiness test).  The
`unique`/`primary_key`/`index`/`check` flags filter by equality with the
passed boolean; the `foreign_key` flag, when given, keeps a constraint
only if its `foreign_key` entry is truthy, regardless of the passed
boolean value. -/
def constraint_names (env : DbEnv) (table : String)
    (column_names : Option (List String))
    (unique primary_key index foreign_key chk : Option Bool) : List String :=
  let cn : Option (List String) :=
    match column_names with
    | some [] => none
    | x => x
  (env.get_constraints table).filterMap fun nc =>
    let matches_ : Bool :=
      (match cn with
       | none => true
       | some cs => cs = nc.2.columns) &&
      (match unique with
       | none => true
       | some u => nc.2.unique = u) &&
      (match primary_key with
       | none => true
       | some p => nc.2.primary_key = p) &&
      (match index with
       | none => true
       | some i => nc.2.index = i) &&
      (match chk with
       | none => true
       | some c => nc.2.chk = c) &&
      (match foreign_key with
       | none => true
       | some _ => nc.2.foreign_key)
    if matches_ then some nc.1 else none

/-- A two-constraint introspection environment used to exhibit the
equality-filtering of the `unique` flag (one unique constraint, one
non-unique index on the same column). -/
def c9Env : DbEnv :=
  { supports_foreign_keys := true
    supports_combined_alters := true
    connection_persists_old_columns := false
    interprets_empty_strings_as_nulls := false
    supports_tablespaces := false
    max_index_name_length := 30
    max_name_length := 30
    quote_name := fun s => s
    tablespace_sql := fun _ => ""
    autoinc_sql := fun _ _ => []
    get_constraints := fun _ =>
      [("app_uniq",
        { columns := ["col"], unique := true, primary_key := false,
          index := false, foreign_key := false, chk := false }),
       ("app_idx",
        { columns := ["col"], unique := false, primary_key := false,
          index := true, foreign_key := false, chk := false })]
    pyHashAbs := fun _ _ => 10
    md5hex := fun _ => "0123456789abcdef0123456789abcdef" }

/-! ## Naming utility: `_create_index_name` -/

/-- Modelled from the spec: `_digest` (`BaseDatabaseCreation._digest`,
`django/db/backends/creation.py`, not under `src/`) — "digest uses a
short stable hash, not the raw column name, to bound length"; a short
stable hash of the column name. -/
def digest (env : DbEnv) (s : String) : String :=
  strTake 8 (env.md5hex s)

/-- Modelled from the spec: `truncate_name` (`django.db.backends.utils`,
not under `src/`) — a name short enough is returned unchanged, otherwise
it is "truncated to the dialect's max identifier length" keeping a short
stable hash tail. -/
def truncate_name (env : DbEnv) (name : String) (length : Nat) : String :=
  if strLen name ≤ length then name
  else strTake length (strTake (length - 4) name ++ strTake 4 (env.md5hex name))

/-- The `'_%x' % abs(hash((table_name, ','.flatten(column_names))))` part of
the multi-column index name. -/
def indexUniqueName (env : DbEnv) (table_name : String) (column_names : List String) : String :=
  "_" ++ hexStr (env.pyHashAbs table_name (String.intercalate "," column_names))

/-- The name before any length fixups in the multi-column branch:
`('%s_%s%s%s' % (table_name, column_names[0], index_unique_name, suffix))`
with `'"'` removed and `'.'` mapped to `'_'`. -/
def cinRawName (env : DbEnv) (table_name : String) (column_names : List String)
    (suffix : String) : String :=
  pyReplaceChar '.' '_'
    (pyReplaceDrop '"'
      (table_name ++ "_" ++ column_names.headD "" ++
        indexUniqueName env table_name column_names ++ suffix))

/-- If the raw name is over the limit, keep the
`_first-column_hash-suffix` tail intact and truncate the table-name part
(a Python slice, so a tail longer than the limit eats the table name from
the right). -/
def cinTruncated (env : DbEnv) (table_name : String) (column_names : List String)
    (suffix : String) : String :=
  let raw := cinRawName env table_name column_names suffix
  if strLen raw > env.max_index_name_length then
    let part := "_" ++ column_names.headD "" ++
      indexUniqueName env table_name column_names ++ suffix
    pySliceTo table_name ((env.max_index_name_length : Int) - strLen part) ++ part
  else raw

/-- Strip one leading underscore (`if index_name[0] == "_"`). -/
def cinStripUnderscore (s : String) : String :=
  if strHeadIs '_' s then strDropFirst s else s

/-- If the name is still over the limit, replace it with a truncated md5
hexdigest of itself. -/
def cinMd5Fallback (env : DbEnv) (s : String) : String :=
  if strLen s > env.max_index_name_length then
    strTake env.max_index_name_length (env.md5hex s)
  else s

/-- A leading digit is replaced by prepending `D` and dropping the last
character. -/
def cinDigitFix (s : String) : String :=
  if strHeadIsDigit s then "D" ++ strDropLast s else s

/-- `_create_index_name(model, column_names, suffix)`.  The source takes
the model and reads only `model._meta.db_table`; the table name is passed
directly here.  Single column and empty suffix: the Django default name
`'{table}_{digest(column)}'` truncated via `truncate_name` to
`ops.max_name_length()`.  Otherwise: the hash-tailed name described
above, truncated to `features.max_index_name_length`, one leading
underscore stripped, md5-hashed down if still over the limit, and a
leading digit replaced by `D`. -/
def create_index_name (env : DbEnv) (db_table : String) (column_names : List String)
    (suffix : String) : String :=
  if column_names.length = 1 ∧ suffix = "" then
    truncate_name env (db_table ++ "_" ++ digest env (column_names.headD ""))
      env.max_name_length
  else
    let table_name := pyReplaceChar '.' '_' (pyReplaceDrop '"' db_table)
    cinDigitFix (cinMd5Fallback env
      (cinStripUnderscore (cinTruncated env table_name column_names suffix)))

/-! ## Column/type mapper -/

/-- `effective_default(field)`: the declared default if `has_default()`,
else the empty string for a non-null blank field that allows empty
strings, else `NULL` (callable defaults are modelled already invoked). -/
def effective_default (f : Field) : Option String :=
  if f.has_default then f.default_val
  else if ¬f.null ∧ f.blank ∧ f.empty_strings_allowed then some ""
  else none

/-- `column_sql(model, field, include_default)`: the column definition
fragment and its parameters, or `none` for a column-less field.
`prepare_default` contributes `("%s", [value])`.  The model tablespace is
passed in place of the model (the source reads only
`model._meta.db_tablespace`). -/
def column_sql (env : DbEnv) (model_tablespace : String) (f : Field)
    (include_default : Bool) : Option (String × List String) :=
  match f.db_type with
  | none => none
  | some t =>
    let defaultValue := effective_default f
    let (sql1, params1) :=
      match include_default, defaultValue with
      | true, some d => (t ++ " DEFAULT %s", [d])
      | _, _ => (t, [])
    let nullFlag :=
      if f.empty_strings_allowed ∧ ¬f.primary_key ∧
          env.interprets_empty_strings_as_nulls then true
      else f.null
    let sql2 := if nullFlag then sql1 ++ " NULL" else sql1 ++ " NOT NULL"
    let sql3 :=
      if f.primary_key then sql2 ++ " PRIMARY KEY"
      else if f.unique then sql2 ++ " UNIQUE"
      else sql2
    let tablespace := if f.db_tablespace ≠ "" then f.db_tablespace else model_tablespace
    let sql4 :=
      if tablespace ≠ "" ∧ env.supports_tablespaces ∧ f.unique then
        sql3 ++ " " ++ env.tablespace_sql tablespace
      else sql3
    some (sql4, params1)

/-! ## `create_model`, `delete_model` -/

/-- The deferred statements produced while building one field's column in
`create_model`: a non-unique index, an FK constraint (when the backend
supports them), and any auto-increment bootstrap SQL, in that order. -/
def cmFieldDeferred (env : DbEnv) (tbl : String) (f : Field) : List Stmt :=
  (if f.db_index ∧ ¬f.unique then
    [Stmt.createIndex (create_index_name env tbl [f.column] "")
      (env.quote_name tbl) (env.quote_name f.column) ""]
  else []) ++
  (match f.rel with
   | some r =>
     if env.supports_foreign_keys then
       [Stmt.createFk (env.quote_name tbl)
         (create_index_name env tbl [f.column] ("_fk_" ++ r.to_table ++ "_" ++ r.to_column))
         (env.quote_name f.column) (env.quote_name r.to_table) (env.quote_name r.to_column)]
     else []
   | none => []) ++
  (if f.is_auto_field then (env.autoinc_sql tbl f.column).map Stmt.raw else [])

/-- All statements `create_model` appends to `deferred_sql` for the
model's own local fields (fields with no column contribute nothing: the
loop `continue`s before reaching the index/FK/auto-increment steps). -/
def cmDeferred (env : DbEnv) (m : Model) : List Stmt :=
  (m.local_fields.map fun f =>
    if f.db_type.isSome then cmFieldDeferred env m.db_table f else []).flatten

/-- One quoted-column definition entry of the CREATE TABLE body, with the
field's check constraint appended inline. -/
def cmColumnDef (env : DbEnv) (model_tablespace : String) (f : Field) :
    Option (String × List String) :=
  match column_sql env model_tablespace f false with
  | none => none
  | some (defn, ps) =>
    let defn' :=
      match f.db_check with
      | some c => defn ++ " CHECK (" ++ c ++ ")"
      | none => defn
    some (env.quote_name f.column ++ " " ++ defn', ps)

/-- A `unique_together` group rendered as `UNIQUE (%(columns)s)`. -/
def cmUniqueClause (env : DbEnv) (m : Model) (fields : List String) : String :=
  "UNIQUE (" ++
    String.intercalate ", " (fields.map fun fn => env.quote_name (m.fieldColumn fn)) ++ ")"

/-- The `CREATE TABLE` entry of `create_model` (unquoted table name, as
in the source): the joined column definitions, then the
`unique_together` clauses, with the concatenated column parameters. -/
def cmTableEntry (env : DbEnv) (m : Model) : TraceEntry :=
  let colDefs := m.local_fields.filterMap (cmColumnDef env m.db_tablespace)
  let defs := colDefs.map Prod.fst ++ m.unique_together.map (cmUniqueClause env m)
  (Stmt.createTable m.db_table (String.intercalate ", " defs),
    (colDefs.map Prod.snd).flatten)

/-- The `index_together` indexes `create_model` executes right after the
`CREATE TABLE`. -/
def cmItgEntries (env : DbEnv) (m : Model) : List TraceEntry :=
  m.index_together.map fun fields =>
    let cols := fields.map m.fieldColumn
    (Stmt.createIndex (create_index_name env m.db_table cols "_idx")
      (env.quote_name m.db_table)
      (String.intercalate ", " (cols.map env.quote_name)) "", [])

/-- The statements `create_model` executes immediately for the model's
own table. -/
def cmImmediate (env : DbEnv) (m : Model) : List TraceEntry :=
  cmTableEntry env m :: cmItgEntries env m

mutual

/-- `create_model(model)`: defer the per-field index/FK/auto-increment
statements, execute the `CREATE TABLE` and the `index_together` indexes,
then recursively create every local many-to-many through model
(`self.create_model(field.rel.through)`, with no `auto_created` test). -/
def create_model (env : DbEnv) : Model → EditorState → EditorState
  | .mk tbl tsp lfs uts its fbn m2ms, st =>
    createThroughs env m2ms
      (appendEntries
        (deferStmts st (cmDeferred env (.mk tbl tsp lfs uts its fbn m2ms)))
        (cmImmediate env (.mk tbl tsp lfs uts its fbn m2ms)))

/-- The `for field in model._meta.local_many_to_many` recursion of
`create_model`. -/
def createThroughs (env : DbEnv) : List (Model × Bool) → EditorState → EditorState
  | [], st => st
  | (thr, _) :: rest, st => createThroughs env rest (create_model env thr st)

end

/-- `create_model` unfolded through the `Model` constructor. -/
theorem create_model_eq (env : DbEnv) (m : Model) (st : EditorState) :
    create_model env m st =
      createThroughs env m.local_many_to_many
        (appendEntries (deferStmts st (cmDeferred env m)) (cmImmediate env m)) := by
  cases m
  rfl

/-- `delete_model(model)`: one `DROP TABLE ... CASCADE`. -/
def delete_model (env : DbEnv) (m : Model) (st : EditorState) : EditorState :=
  execute st (.deleteTable (env.quote_name m.db_table)) []

/-- `alter_db_table(model, old_db_table, new_db_table)` (the model
argument is unused by the source beyond the two names). -/
def alter_db_table (env : DbEnv) (old_table new_table : String) (st : EditorState) :
    EditorState :=
  execute st (.renameTable (env.quote_name old_table) (env.quote_name new_table)) []

/-! ## `add_field`, `remove_field` -/

/-- A field argument to `add_field`/`remove_field`/`alter_field`: either
a column-backed field or a `ManyToManyField`, the latter carrying its
`rel.through` model, the through model's `_meta.auto_created` flag, and
the through model's field named by `m2m_reverse_field_name()` (used by
the M2M-repoint path of `alter_field`). -/
inductive AnyField where
  | scalar (f : Field)
  | m2m (through : Model) (auto_created : Bool) (reverse_field : Field)

/-- `add_field(model, field)`.  An auto-created M2M delegates to
`create_model` on the through model; a non-auto M2M falls through to
`column_sql`, whose type is `None`, so the method returns with no
action.  Scalar fields: `ADD COLUMN` with the default included, an
immediate `DROP DEFAULT` when `field.default is not None`, then deferred
index/FK statements (the FK name here is the legacy
`'%s_refs_%s_%x'` format, not `_create_index_name`). -/
def add_field (env : DbEnv) (m : Model) (fld : AnyField) (st : EditorState) : EditorState :=
  match fld with
  | .m2m thr auto _ => if auto then create_model env thr st else st
  | .scalar f =>
    match column_sql env m.db_tablespace f true with
    | none => st
    | some (defn, params) =>
      let defn' :=
        match f.db_check with
        | some c => defn ++ " CHECK (" ++ c ++ ")"
        | none => defn
      let st1 := execute st
        (.createColumn (env.quote_name m.db_table) (env.quote_name f.column) defn') params
      let st2 :=
        if f.default_not_none then
          execute st1 (.alterColumn (env.quote_name m.db_table)
            [.dropDefault (env.quote_name f.column)]) []
        else st1
      let st3 :=
        if f.db_index ∧ ¬f.unique then
          deferStmts st2 [Stmt.createIndex (create_index_name env m.db_table [f.column] "")
            (env.quote_name m.db_table) (env.quote_name f.column) ""]
        else st2
      match f.rel with
      | some r =>
        if env.supports_foreign_keys then
          deferStmts st3 [Stmt.createFk (env.quote_name m.db_table)
            (f.column ++ "_refs_" ++ r.to_column ++ "_" ++
              hexStr (env.pyHashAbs m.db_table r.to_table))
            (env.quote_name f.column) (env.quote_name r.to_table)
            (env.quote_name r.to_column)]
        else st3
      | none => st3

/-- `remove_field(model, field)`.  An auto-created M2M delegates to
`delete_model` on the through model; a non-auto M2M (type `None`)
returns with no action; a scalar field's column is dropped. -/
def remove_field (env : DbEnv) (m : Model) (fld : AnyField) (st : EditorState) : EditorState :=
  match fld with
  | .m2m thr auto _ => if auto then delete_model env thr st else st
  | .scalar f =>
    match f.db_type with
    | none => st
    | some _ =>
      execute st (.deleteColumn (env.quote_name m.db_table) (env.quote_name f.column)) []

/-! ## `alter_field` -/

/-- The kind tag of a strict "found wrong number of constraints" check. -/
inductive ConstraintKind where
  | unique
  | index
  | foreignKey
  | chk
  | primaryKey
deriving DecidableEq, Repr

/-- The errors `alter_field` can raise: the incompatible-types
`ValueError`, the strict-mode wrong-count `ValueError`s, and the
`AttributeError` the source hits when both sides are column-less outside
the auto-created-M2M path (it dereferences `rel.through` on an object
without that attribute). -/
inductive SchemaError where
  | incompatibleTypes
  | wrongCount (kind : ConstraintKind) (found : Nat)
  | attributeError
deriving DecidableEq, Repr

/-- Run the phases of `alter_field` in order: each phase either raises
(stopping the procedure, with every statement already executed kept) or
contributes its trace entries. -/
def runSegments (st : EditorState) :
    List (Except SchemaError (List TraceEntry)) → EditorState × Option SchemaError
  | [] => (st, none)
  | .error e :: _ => (st, some e)
  | .ok l :: rest => runSegments (appendEntries st l) rest

/-- Phase: "Has unique been removed?"  Drop the matching unique
constraints; strict mode demands exactly one match. -/
def afDropUnique (env : DbEnv) (tbl : String) (old new : Field) (strict : Bool) :
    Except SchemaError (List TraceEntry) :=
  if old.unique ∧ (¬new.unique ∨ (¬old.primary_key ∧ new.primary_key)) then
    let names := constraint_names env tbl (some [old.column]) (some true) none none none none
    if strict ∧ names.length ≠ 1 then .error (.wrongCount .unique names.length)
    else .ok (names.map fun n => (Stmt.deleteUnique (env.quote_name tbl) n, []))
  else .ok []

/-- Phase: "Removed an index?" -/
def afDropIndex (env : DbEnv) (tbl : String) (old new : Field) (strict : Bool) :
    Except SchemaError (List TraceEntry) :=
  if old.db_index ∧ ¬new.db_index ∧ ¬old.unique ∧ ¬(¬new.unique ∧ old.unique) then
    let names := constraint_names env tbl (some [old.column]) none none (some true) none none
    if strict ∧ names.length ≠ 1 then .error (.wrongCount .index names.length)
    else .ok (names.map fun n => (Stmt.deleteIndex n, []))
  else .ok []

/-- Phase: "Drop any FK constraints, we'll remake them later." -/
def afDropFk (env : DbEnv) (tbl : String) (old _new : Field) (strict : Bool) :
    Except SchemaError (List TraceEntry) :=
  if old.rel.isSome then
    let names := constraint_names env tbl (some [old.column]) none none none (some true) none
    if strict ∧ names.length ≠ 1 then .error (.wrongCount .foreignKey names.length)
    else .ok (names.map fun n => (Stmt.deleteFk (env.quote_name tbl) n, []))
  else .ok []

/-- Phase: "Drop incoming FK constraints if we're a primary key and
things are going to change" (no strict check here). -/
def afDropIncomingFks (env : DbEnv) (old new : Field) (ot nt : String) : List TraceEntry :=
  if old.primary_key ∧ new.primary_key ∧ ot ≠ nt then
    (new.related_objects.map fun r =>
      (constraint_names env r.model_table (some [r.field_column])
        none none none (some true) none).map
        fun n => (Stmt.deleteFk (env.quote_name r.model_table) n, [])).flatten
  else []

/-- Phase: "Change check constraints?" (drop side). -/
def afDropCheck (env : DbEnv) (tbl : String) (old new : Field) (strict : Bool) :
    Except SchemaError (List TraceEntry) :=
  if old.db_check ≠ new.db_check ∧ old.db_check.isSome then
    let names := constraint_names env tbl (some [old.column]) none none none none (some true)
    if strict ∧ names.length ≠ 1 then .error (.wrongCount .chk names.length)
    else .ok (names.map fun n => (Stmt.deleteCheck (env.quote_name tbl) n, []))
  else .ok []

/-- Phase: "Have they renamed the column?" -/
def afRename (env : DbEnv) (tbl : String) (old new : Field) : List TraceEntry :=
  if old.column ≠ new.column then
    [(Stmt.renameColumn (env.quote_name tbl) (env.quote_name old.column)
      (env.quote_name new.column), [])]
  else []

/-- `_alter_column_type_sql` (base hook): a plain
`ALTER COLUMN ... TYPE ...` fragment and no post-actions. -/
def alter_column_type_sql (env : DbEnv) (_table column type_ : String) :
    (ColChange × List String) × List TraceEntry :=
  ((ColChange.typeChange (env.quote_name column) type_, []), [])

/-- Phase: accumulate the type/default/nullability actions, combine them
into one `ALTER TABLE` when the backend supports combined alters
(fragments joined, parameter lists concatenated), then run the
post-actions of the type hook. -/
def afActions (env : DbEnv) (tbl : String) (old new : Field) (ot nt : String) :
    List TraceEntry :=
  let (typeActs, postActs) :=
    if ot ≠ nt then
      let hook := alter_column_type_sql env tbl new.column nt
      ([hook.1], hook.2)
    else ([], [])
  let defActs : List (ColChange × List String) :=
    if effective_default old ≠ effective_default new then
      match effective_default new with
      | none => [(ColChange.dropDefault (env.quote_name new.column), [])]
      | some d => [(ColChange.setDefault (env.quote_name new.column) "%s", [d])]
    else []
  let nullActs : List (ColChange × List String) :=
    if old.null ≠ new.null then
      if new.null then [(ColChange.dropNotNull (env.quote_name new.column), [])]
      else [(ColChange.setNotNull (env.quote_name new.column), [])]
    else []
  let actions := typeActs ++ defActs ++ nullActs
  let actionEntries :=
    if actions.isEmpty then []
    else if env.supports_combined_alters then
      [(Stmt.alterColumn (env.quote_name tbl) (actions.map Prod.fst),
        (actions.map Prod.snd).flatten)]
    else actions.map fun a => (Stmt.alterColumn (env.quote_name tbl) [a.1], a.2)
  actionEntries ++ postActs

/-- Phase: "Added a unique?" -/
def afAddUnique (env : DbEnv) (tbl : String) (old new : Field) : List TraceEntry :=
  if ¬old.unique ∧ new.unique then
    [(Stmt.createUnique (env.quote_name tbl) (create_index_name env tbl [new.column] "_uniq")
      (env.quote_name new.column), [])]
  else []

/-- Phase: "Added an index?" (the source names it with the `_uniq`
suffix). -/
def afAddIndex (env : DbEnv) (tbl : String) (old new : Field) : List TraceEntry :=
  if ¬old.db_index ∧ new.db_index ∧ ¬new.unique ∧ ¬(¬old.unique ∧ new.unique) then
    [(Stmt.createIndex (create_index_name env tbl [new.column] "_uniq")
      (env.quote_name tbl) (env.quote_name new.column) "", [])]
  else []

/-- Phase: "Changed to become primary key?"  Drop the introspected PK
constraints (strict: exactly one) and create the new PK.  A field that
stays PK with a changed type does *not* enter this phase. -/
def afBecomePk (env : DbEnv) (tbl : String) (old new : Field) (strict : Bool) :
    Except SchemaError (List TraceEntry) :=
  if ¬old.primary_key ∧ new.primary_key then
    let names := constraint_names env tbl none none (some true) none none none
    if strict ∧ names.length ≠ 1 then .error (.wrongCount .primaryKey names.length)
    else .ok ((names.map fun n => (Stmt.deletePk (env.quote_name tbl) n, [])) ++
      [(Stmt.createPk (env.quote_name tbl) (create_index_name env tbl [new.column] "_pk")
        (env.quote_name new.column), [])])
  else .ok []

/-- The `rels_to_update` accumulation: incoming relations collected for a
PK whose type changed, and again when the field just became the PK. -/
def afRelsToUpdate (old new : Field) (ot nt : String) : List RelatedObject :=
  (if old.primary_key ∧ new.primary_key ∧ ot ≠ nt then new.related_objects else []) ++
  (if ¬old.primary_key ∧ new.primary_key then new.related_objects else [])

/-- Phase: "Handle our type alters on the other end of rels from the PK
stuff above": each referencing column is re-typed. -/
def afRelUpdates (env : DbEnv) (old new : Field) (ot nt : String) : List TraceEntry :=
  (afRelsToUpdate old new ot nt).map fun r =>
    (Stmt.alterColumn (env.quote_name r.model_table)
      [ColChange.typeChange (env.quote_name r.field_column) r.field_type], [])

/-- Phase: "Does it have a foreign key?"  Re-create the FK whenever the
new field carries a relation (no comparison with the old field). -/
def afCreateFk (env : DbEnv) (tbl : String) (new : Field) : List TraceEntry :=
  match new.rel with
  | some r =>
    [(Stmt.createFk (env.quote_name tbl) (create_index_name env tbl [new.column] "_fk")
      (env.quote_name new.column) (env.quote_name r.to_table)
      (env.quote_name r.to_column), [])]
  | none => []

/-- Phase: "Rebuild FKs that pointed to us if we previously had to drop
them." -/
def afRebuildIncomingFks (env : DbEnv) (tbl : String) (old new : Field) (ot nt : String) :
    List TraceEntry :=
  if old.primary_key ∧ new.primary_key ∧ ot ≠ nt then
    new.related_objects.map fun r =>
      (Stmt.createFk (env.quote_name r.model_table)
        (create_index_name env r.model_table [r.field_column] "_fk")
        (env.quote_name r.field_column) (env.quote_name tbl)
        (env.quote_name new.column), [])
  else []

/-- Phase: "Does it have check constraints we need to add?" -/
def afAddCheck (env : DbEnv) (tbl : String) (old new : Field) : List TraceEntry :=
  if old.db_check ≠ new.db_check ∧ new.db_check.isSome then
    [(Stmt.createCheck (env.quote_name tbl) (create_index_name env tbl [new.column] "_check")
      (new.db_check.getD ""), [])]
  else []

/-- All phases of `alter_field` on a column-backed field, in source
order. -/
def afSegments (env : DbEnv) (tbl : String) (old new : Field) (strict : Bool)
    (ot nt : String) : List (Except SchemaError (List TraceEntry)) :=
  [afDropUnique env tbl old new strict,
   afDropIndex env tbl old new strict,
   afDropFk env tbl old new strict,
   .ok (afDropIncomingFks env old new ot nt),
   afDropCheck env tbl old new strict,
   .ok (afRename env tbl old new),
   .ok (afActions env tbl old new ot nt),
   .ok (afAddUnique env tbl old new),
   .ok (afAddIndex env tbl old new),
   afBecomePk env tbl old new strict,
   .ok (afRelUpdates env old new ot nt),
   .ok (afCreateFk env tbl new),
   .ok (afRebuildIncomingFks env tbl old new ot nt),
   .ok (afAddCheck env tbl old new)]

/-- `alter_field` on two column-backed (scalar) fields.  When exactly one
side is column-less the source raises the incompatible-types
`ValueError`; when both are (outside the auto-M2M path)
it crashes dereferencing `rel.through`. -/
def alter_field_scalar (env : DbEnv) (m : Model) (old new : Field) (strict : Bool)
    (st : EditorState) : EditorState × Option SchemaError :=
  match old.db_type, new.db_type with
  | some ot, some nt => runSegments st (afSegments env m.db_table old new strict ot nt)
  | none, none => (st, some .attributeError)
  | _, _ => (st, some .incompatibleTypes)

/-- `_alter_many_to_many`: rename the through table, then repoint the
through model's reverse FK via `alter_field` (called with the default
`strict=False`; both arguments are column-backed fields of the through
model). -/
def alter_many_to_many (env : DbEnv) (old_through new_through : Model)
    (old_rev new_rev : Field) (st : EditorState) : EditorState × Option SchemaError :=
  let st1 := alter_db_table env old_through.db_table new_through.db_table st
  alter_field_scalar env new_through old_rev new_rev false st1

/-- `alter_field(model, old_field, new_field, strict)`.  Both sides
column-less: the auto-created-M2M pair goes to the repoint procedure,
anything else raises (`ValueError` when a side has a column type,
`AttributeError` when the source would dereference a missing
`rel.through`). -/
def alter_field (env : DbEnv) (m : Model) (old new : AnyField) (strict : Bool)
    (st : EditorState) : EditorState × Option SchemaError :=
  match old, new with
  | .m2m othr oauto orev, .m2m nthr nauto nrev =>
    if oauto ∧ nauto then alter_many_to_many env othr nthr orev nrev st
    else (st, some .incompatibleTypes)
  | .m2m _ _ _, .scalar g =>
    if g.db_type.isSome then (st, some .incompatibleTypes)
    else (st, some .attributeError)
  | .scalar f, .m2m _ _ _ =>
    if f.db_type.isSome then (st, some .incompatibleTypes)
    else (st, some .attributeError)
  | .scalar f, .scalar g => alter_field_scalar env m f g strict st

/-! ## Basic state lemmas -/

theorem appendEntries_nil (st : EditorState) : appendEntries st [] = st := by
  cases st with
  | mk c col ex de => cases c <;> simp [appendEntries]

theorem appendEntries_append (st : EditorState) (a b : List TraceEntry) :
    appendEntries (appendEntries st a) b = appendEntries st (a ++ b) := by
  unfold appendEntries
  by_cases h : st.collect_sql <;> simp [h]

theorem trace_appendEntries (st : EditorState) (l : List TraceEntry) :
    (appendEntries st l).trace = st.trace ++ l := by
  unfold appendEntries EditorState.trace
  by_cases h : st.collect_sql <;> simp [h]

theorem deferred_appendEntries (st : EditorState) (l : List TraceEntry) :
    (appendEntries st l).deferred_sql = st.deferred_sql := by
  unfold appendEntries
  by_cases h : st.collect_sql <;> simp [h]

theorem trace_deferStmts (st : EditorState) (l : List Stmt) :
    (deferStmts st l).trace = st.trace := by
  unfold deferStmts EditorState.trace
  by_cases h : st.collect_sql <;> simp [h]

theorem deferred_deferStmts (st : EditorState) (l : List Stmt) :
    (deferStmts st l).deferred_sql = st.deferred_sql ++ l := rfl

theorem foldl_execute_eq (l : List Stmt) :
    ∀ st : EditorState, l.foldl (fun s sql => execute s sql []) st =
      appendEntries st (l.map fun s => (s, [])) := by
  induction l with
  | nil => intro st; simp [appendEntries_nil]
  | cons a t ih =>
    intro st
    rw [List.foldl_cons, ih, List.map_cons,
      show execute st a [] = appendEntries st [(a, [])] from rfl, appendEntries_append]
    rfl

theorem exitSession_clean_eq (st : EditorState) :
    exitSession false st = appendEntries st (st.deferred_sql.map fun s => (s, [])) := by
  unfold exitSession
  simp [foldl_execute_eq]

/-! ## C7: session exit semantics -/

/-- C7: if the session exits with an exception, none of the deferred
statements is executed (the state, trace included, is unchanged — they
are discarded); on a clean exit every deferred statement is executed, in
insertion order, appended to the trace as the session closes. -/
theorem c7_exit_discards_or_flushes_deferred (st : EditorState) :
    exitSession true st = st ∧
    exitSession false st = appendEntries st (st.deferred_sql.map fun s => (s, [])) :=
  ⟨rfl, exitSession_clean_eq st⟩

/-! ## C9: `_constraint_names` flag semantics -/

/-- C9: `_constraint_names` with `foreign_key=False` returns the same
result as with `foreign_key=True` — a non-`None` `foreign_key` argument
always restricts to constraints whose `foreign_key` entry is truthy —
whereas the `unique` flag filters by equality with the passed boolean, so
that passing `False` there selects the non-unique constraints (shown on a
concrete two-constraint introspection environment). -/
theorem c9_foreign_key_filter_is_truthiness_test :
    (∀ (env : DbEnv) (table : String) (cn : Option (List String))
        (u p i c : Option Bool) (b : Bool),
      constraint_names env table cn u p i (some b) c =
        constraint_names env table cn u p i (some true) c) ∧
    constraint_names c9Env "tbl" (some ["col"]) (some false) none none none none =
      ["app_idx"] ∧
    constraint_names c9Env "tbl" (some ["col"]) (some true) none none none none =
      ["app_uniq"] := by
  refine ⟨fun env table cn u p i c b => rfl, ?_, ?_⟩ <;> rfl

/-! ## `create_model` trace lemmas and C10 -/

mutual

theorem create_model_trace_extends (env : DbEnv) (m : Model) (st : EditorState) :
    ∃ l, (create_model env m st).trace = st.trace ++ l := by
  cases m with
  | mk tbl tsp lfs uts its fbn m2ms =>
    obtain ⟨t, ht⟩ := createThroughs_trace_extends env m2ms
      (appendEntries
        (deferStmts st (cmDeferred env (.mk tbl tsp lfs uts its fbn m2ms)))
        (cmImmediate env (.mk tbl tsp lfs uts its fbn m2ms)))
    refine ⟨cmImmediate env (.mk tbl tsp lfs uts its fbn m2ms) ++ t, ?_⟩
    rw [create_model_eq, Model.local_many_to_many, ht, trace_appendEntries,
      trace_deferStmts, List.append_assoc]

theorem createThroughs_trace_extends (env : DbEnv) (l : List (Model × Bool))
    (st : EditorState) : ∃ t, (createThroughs env l st).trace = st.trace ++ t := by
  match l with
  | [] => exact ⟨[], by rw [createThroughs, List.append_nil]⟩
  | (thr, a) :: rest =>
    obtain ⟨t1, h1⟩ := create_model_trace_extends env thr st
    obtain ⟨t2, h2⟩ := createThroughs_trace_extends env rest (create_model env thr st)
    exact ⟨t1 ++ t2, by rw [createThroughs, h2, h1, List.append_assoc]⟩

end

theorem create_model_emits_own_table (env : DbEnv) (m : Model) (st : EditorState) :
    ∃ d ps, (Stmt.createTable m.db_table d, ps) ∈ (create_model env m st).trace := by
  have := createThroughs_trace_extends env m.local_many_to_many
    (appendEntries (deferStmts st (cmDeferred env m)) (cmImmediate env m))
  obtain ⟨t, ht⟩ := this
  have hmem : cmTableEntry env m ∈ (create_model env m st).trace := by
    rw [create_model_eq, ht, trace_appendEntries, trace_deferStmts]
    simp [cmImmediate]
  unfold cmTableEntry at hmem
  exact ⟨_, _, hmem⟩

theorem createThroughs_emits_table (env : DbEnv) (thr : Model) (auto : Bool) :
    ∀ (l : List (Model × Bool)) (st : EditorState), (thr, auto) ∈ l →
      ∃ d ps, (Stmt.createTable thr.db_table d, ps) ∈ (createThroughs env l st).trace := by
  intro l
  induction l with
  | nil => intro st h; cases h
  | cons hd tl ih =>
    intro st h
    obtain ⟨thr', a'⟩ := hd
    rcases List.mem_cons.mp h with heq | hmem
    · obtain ⟨h1, _⟩ := Prod.mk.injEq .. ▸ heq
      subst h1
      obtain ⟨d, ps, hmemd⟩ := create_model_emits_own_table env thr st
      obtain ⟨t, ht⟩ := createThroughs_trace_extends env tl (create_model env thr st)
      refine ⟨d, ps, ?_⟩
      rw [createThroughs, ht]
      exact List.mem_append_left _ hmemd
    · exact ih (create_model env thr' st) hmem

/-- C10: `create_model` recursively creates the through model of every
local many-to-many field — its `CREATE TABLE` appears in the trace — with
no `auto_created` test, whereas `add_field`/`remove_field` delegate to
`create_model`/`delete_model` on the through model only when it is
auto-created (a non-auto many-to-many leaves the state untouched: its
column type is `None`). -/
theorem c10_m2m_through_model_delegation (env : DbEnv) (m : Model) (st : EditorState)
    (thr : Model) (auto : Bool) (rev : Field)
    (h : (thr, auto) ∈ m.local_many_to_many) :
    (∃ d ps, (Stmt.createTable thr.db_table d, ps) ∈ (create_model env m st).trace) ∧
    add_field env m (.m2m thr auto rev) st =
      (if auto then create_model env thr st else st) ∧
    remove_field env m (.m2m thr auto rev) st =
      (if auto then delete_model env thr st else st) := by
  refine ⟨?_, rfl, rfl⟩
  rw [create_model_eq]
  exact createThroughs_emits_table env thr auto m.local_many_to_many _ h

/-- Witness for C10 at a concrete model with one non-auto-created
many-to-many through model. -/
def thrW : Model := .mk "through_tbl" "" [] [] [] [] []

/-- A model owning `thrW` as a non-auto-created through model. -/
def mW : Model := .mk "owner_tbl" "" [] [] [] [] [(thrW, false)]

theorem c10_m2m_through_model_delegation_witness :
    (∃ d ps, (Stmt.createTable thrW.db_table d, ps) ∈
      (create_model c9Env mW (startSession true)).trace) ∧
    add_field c9Env mW (.m2m thrW false ⟨"", none, none, false, false, false, false,
      none, false, none, false, false, false, "", false, []⟩) (startSession true) =
      (if false then create_model c9Env thrW (startSession true) else startSession true) ∧
    remove_field c9Env mW (.m2m thrW false ⟨"", none, none, false, false, false, false,
      none, false, none, false, false, false, "", false, []⟩) (startSession true) =
      (if false then delete_model c9Env thrW (startSession true) else startSession true) :=
  c10_m2m_through_model_delegation c9Env mW (startSession true) thrW false _
    (by simp [mW, Model.local_many_to_many])

/-! ## C5/C6: `_create_index_name` determinism, length, leading chars -/

theorem strLen_strTake (n : Nat) (s : String) : strLen (strTake n s) = min n (strLen s) := by
  simp [strTake, strLen]

theorem truncate_name_le (env : DbEnv) (name : String) (length : Nat) :
    strLen (truncate_name env name length) ≤ length := by
  unfold truncate_name
  split
  · assumption
  · rw [strLen_strTake]; exact Nat.min_le_left _ _

theorem cinMd5Fallback_le (env : DbEnv) (s : String) :
    strLen (cinMd5Fallback env s) ≤ env.max_index_name_length := by
  unfold cinMd5Fallback
  split
  · rw [strLen_strTake]; exact Nat.min_le_left _ _
  · omega

theorem cinDigitFix_len (s : String) : strLen (cinDigitFix s) = strLen s := by
  unfold cinDigitFix strHeadIsDigit
  cases hs : s.data with
  | nil => simp
  | cons c cs =>
    by_cases hd : c.isDigit
    · simp only [hd, if_true, strLen, String.data_append, strDropLast, hs]
      simp [List.length_dropLast]
    · simp [hd]

theorem cinDigitFix_head_not_digit (s : String) :
    strHeadIsDigit (cinDigitFix s) = false := by
  unfold cinDigitFix
  by_cases h : strHeadIsDigit s
  · rw [if_pos h]
    show strHeadIsDigit (String.mk ('D' :: (strDropLast s).data)) = false
    simp [strHeadIsDigit]
  · rw [if_neg h]
    exact Bool.not_eq_true _ ▸ h

/-- C6 (amended): in the multi-column-or-nonempty-suffix branch the
generated name always has length at most `max_index_name_length` and
never starts with a digit — but it *can* start with an underscore (only
one leading underscore is stripped, so a table name starting with two
underscores survives with one; and the single-column/no-suffix branch
applies no leading-character fixup at all). -/
theorem c6_truncation_leading_chars (env : DbEnv) (table : String) (cols : List String)
    (suffix : String) (hbranch : ¬(cols.length = 1 ∧ suffix = "")) :
    strLen (create_index_name env table cols suffix) ≤ env.max_index_name_length ∧
    strHeadIsDigit (create_index_name env table cols suffix) = false := by
  unfold create_index_name
  rw [if_neg hbranch]
  exact ⟨by rw [cinDigitFix_len]; exact cinMd5Fallback_le env _,
    cinDigitFix_head_not_digit _⟩

theorem c6_truncation_leading_chars_witness :
    strLen (create_index_name c9Env "some_table" ["a", "b"] "_idx") ≤
      c9Env.max_index_name_length ∧
    strHeadIsDigit (create_index_name c9Env "some_table" ["a", "b"] "_idx") = false :=
  c6_truncation_leading_chars c9Env "some_table" ["a", "b"] "_idx" (by decide)

/-- An environment with a 20-character identifier limit used to exhibit
the surviving leading underscore. -/
def cexEnv : DbEnv :=
  { c9Env with max_index_name_length := 20, max_name_length := 20 }

/-- C6 counterexample: for the doubly-underscored table
`__aaaaaaaaaaaaaaaaaaaa` with one column and the `_idx` suffix, the
naive concatenation exceeds the 20-character limit, yet the returned
name starts with an underscore (the truncated name starts with two and
only one is stripped), refuting clause (b) of the claim. -/
theorem c6_counterexample_leading_underscore :
    cexEnv.max_index_name_length <
      strLen (cinRawName cexEnv "__aaaaaaaaaaaaaaaaaaaa" ["c"] "_idx") ∧
    strHeadIs '_' (create_index_name cexEnv "__aaaaaaaaaaaaaaaaaaaa" ["c"] "_idx") = true := by
  constructor
  · decide
  · decide

/-- C5: `_create_index_name` is deterministic — equal arguments yield an
equal string (it is a pure function of the table, columns, suffix and
environment) — and the result never exceeds the dialect's max identifier
length (the two dialect limits, `ops.max_name_length()` used by the
single-column branch and `features.max_index_name_length` used by the
other, taken as the same dialect limit). -/
theorem c5_name_stability_and_length (env : DbEnv) (table : String) (cols : List String)
    (suffix : String) (hmax : env.max_name_length = env.max_index_name_length) :
    create_index_name env table cols suffix = create_index_name env table cols suffix ∧
    strLen (create_index_name env table cols suffix) ≤ env.max_index_name_length := by
  refine ⟨rfl, ?_⟩
  unfold create_index_name
  split
  · rw [← hmax]; exact truncate_name_le env _ _
  · rw [cinDigitFix_len]; exact cinMd5Fallback_le env _

theorem c5_name_stability_and_length_witness :
    create_index_name c9Env "person" ["first", "last"] "_uniq" =
      create_index_name c9Env "person" ["first", "last"] "_uniq" ∧
    strLen (create_index_name c9Env "person" ["first", "last"] "_uniq") ≤
      c9Env.max_index_name_length :=
  c5_name_stability_and_length c9Env "person" ["first", "last"] "_uniq" rfl

/-! ## `alter_field` no-op phase lemmas (for C4) -/

theorem afDropUnique_noop (env : DbEnv) (tbl : String) (f : Field) (strict : Bool) :
    afDropUnique env tbl f f strict = .ok [] := by
  unfold afDropUnique
  rw [if_neg]
  rintro ⟨h1, h2 | ⟨h3, h4⟩⟩
  · exact h2 h1
  · exact h3 h4

theorem afDropIndex_noop (env : DbEnv) (tbl : String) (f : Field) (strict : Bool) :
    afDropIndex env tbl f f strict = .ok [] := by
  unfold afDropIndex
  rw [if_neg]
  rintro ⟨h1, h2, _⟩
  exact h2 h1

theorem afDropFk_noop (env : DbEnv) (tbl : String) (f g : Field) (strict : Bool)
    (hrel : f.rel = none) : afDropFk env tbl f g strict = .ok [] := by
  simp [afDropFk, hrel]

theorem afDropIncomingFks_noop (env : DbEnv) (f g : Field) (t : String) :
    afDropIncomingFks env f g t t = [] := by
  unfold afDropIncomingFks
  rw [if_neg]
  rintro ⟨_, _, h⟩
  exact h rfl

theorem afDropCheck_noop (env : DbEnv) (tbl : String) (f : Field) (strict : Bool) :
    afDropCheck env tbl f f strict = .ok [] := by
  unfold afDropCheck
  rw [if_neg]
  rintro ⟨h, _⟩
  exact h rfl

theorem afRename_noop (env : DbEnv) (tbl : String) (f : Field) :
    afRename env tbl f f = [] := by
  unfold afRename
  rw [if_neg]
  intro h
  exact h rfl

theorem afActions_noop (env : DbEnv) (tbl : String) (f : Field) (t : String) :
    afActions env tbl f f t t = [] := by
  simp [afActions]

theorem afAddUnique_noop (env : DbEnv) (tbl : String) (f : Field) :
    afAddUnique env tbl f f = [] := by
  unfold afAddUnique
  rw [if_neg]
  rintro ⟨h1, h2⟩
  exact h1 h2

theorem afAddIndex_noop (env : DbEnv) (tbl : String) (f : Field) :
    afAddIndex env tbl f f = [] := by
  unfold afAddIndex
  rw [if_neg]
  rintro ⟨h1, h2, _⟩
  exact h1 h2

theorem afBecomePk_noop (env : DbEnv) (tbl : String) (f : Field) (strict : Bool) :
    afBecomePk env tbl f f strict = .ok [] := by
  unfold afBecomePk
  rw [if_neg]
  rintro ⟨h1, h2⟩
  exact h1 h2

theorem afRelUpdates_noop (env : DbEnv) (f : Field) (t : String) :
    afRelUpdates env f f t t = [] := by
  unfold afRelUpdates afRelsToUpdate
  rw [if_neg, if_neg]
  · rfl
  · rintro ⟨h1, h2⟩; exact h1 h2
  · rintro ⟨_, _, h⟩; exact h rfl

theorem afCreateFk_noop (env : DbEnv) (tbl : String) (g : Field) (hrel : g.rel = none) :
    afCreateFk env tbl g = [] := by
  simp [afCreateFk, hrel]

theorem afRebuildIncomingFks_noop (env : DbEnv) (tbl : String) (f g : Field) (t : String) :
    afRebuildIncomingFks env tbl f g t t = [] := by
  unfold afRebuildIncomingFks
  rw [if_neg]
  rintro ⟨_, _, h⟩
  exact h rfl

theorem afAddCheck_noop (env : DbEnv) (tbl : String) (f : Field) :
    afAddCheck env tbl f f = [] := by
  unfold afAddCheck
  rw [if_neg]
  rintro ⟨h, _⟩
  exact h rfl

/-! ## C4: no-op `alter_field` -/

/-- C4 (amended): for every column-backed field `f` with no foreign-key
relation, `alter_field(model, f, f)` issues zero statements and raises no
error.  (A field that *does* carry a relation is excluded: the source
unconditionally drops the introspected FK constraints and re-creates the
FK, emitting at least one ALTER TABLE statement.) -/
theorem c4_noop_alter_field_no_rel (env : DbEnv) (m : Model) (f : Field) (strict : Bool)
    (st : EditorState) (t : String) (htype : f.db_type = some t) (hrel : f.rel = none) :
    alter_field env m (.scalar f) (.scalar f) strict st = (st, none) := by
  show alter_field_scalar env m f f strict st = (st, none)
  unfold alter_field_scalar
  rw [htype]
  show runSegments st (afSegments env m.db_table f f strict t t) = (st, none)
  unfold afSegments
  rw [afDropUnique_noop, afDropIndex_noop, afDropFk_noop env _ f f strict hrel,
    afDropIncomingFks_noop, afDropCheck_noop, afRename_noop, afActions_noop,
    afAddUnique_noop, afAddIndex_noop, afBecomePk_noop, afRelUpdates_noop,
    afCreateFk_noop env _ f hrel, afRebuildIncomingFks_noop, afAddCheck_noop]
  simp [runSegments, appendEntries_nil]

/-- A foreign-key field used in the C4 counterexample. -/
def fkFieldX : Field :=
  { column := "col", db_type := some "integer", db_check := none, null := false,
    unique := false, primary_key := false, db_index := false,
    rel := some { to_table := "other", to_column := "id" },
    has_default := false, default_val := none, default_not_none := false,
    blank := false, empty_strings_allowed := false, db_tablespace := "",
    is_auto_field := false, related_objects := [] }

/-- The same field with the relation removed. -/
def plainFieldX : Field := { fkFieldX with rel := none }

/-- A one-field model for the C4 scenario. -/
def modelX : Model := .mk "main_tbl" "" [fkFieldX] [] [] [] []

/-- C4 counterexample: `alter_field(model, f, f)` on a foreign-key field
with `old = new` in every attribute still emits SQL (the FK is
re-created), so the call does not issue zero statements. -/
theorem c4_counterexample_fk_field_emits :
    (alter_field c9Env modelX (.scalar fkFieldX) (.scalar fkFieldX) false
      (startSession true)).1.collected_sql ≠ [] ∧
    (alter_field c9Env modelX (.scalar fkFieldX) (.scalar fkFieldX) false
      (startSession true)).2 = none := by
  constructor
  · decide
  · decide

theorem c4_noop_alter_field_no_rel_witness :
    alter_field c9Env modelX (.scalar plainFieldX) (.scalar plainFieldX) true
      (startSession true) = (startSession true, none) :=
  c4_noop_alter_field_no_rel c9Env modelX plainFieldX true (startSession true)
    "integer" rfl rfl

/-! ## C8: strict wrong-count error before any SQL -/

theorem afDropUnique_strict_error (env : DbEnv) (tbl : String) (old new : Field)
    (hu : old.unique = true) (hnu : new.unique = false)
    (hcount :
      (constraint_names env tbl (some [old.column]) (some true) none none none none).length
        ≠ 1) :
    afDropUnique env tbl old new true =
      .error (.wrongCount .unique
        (constraint_names env tbl (some [old.column])
          (some true) none none none none).length) := by
  unfold afDropUnique
  rw [if_pos ⟨hu, Or.inl (by simp [hnu])⟩, if_pos ⟨rfl, hcount⟩]

/-- C8: with `strict=True`, removing uniqueness when introspection does
not return exactly one matching unique constraint raises the wrong-count
`ValueError` (a consistency error, not a database error) and executes no
SQL: the returned state is exactly the input state. -/
theorem c8_strict_unique_wrong_count (env : DbEnv) (m : Model) (old new : Field)
    (st : EditorState) (ot nt : String)
    (hot : old.db_type = some ot) (hnt : new.db_type = some nt)
    (hu : old.unique = true) (hnu : new.unique = false)
    (hcount :
      (constraint_names env m.db_table (some [old.column])
        (some true) none none none none).length ≠ 1) :
    alter_field env m (.scalar old) (.scalar new) true st =
      (st, some (.wrongCount .unique
        (constraint_names env m.db_table (some [old.column])
          (some true) none none none none).length)) := by
  show alter_field_scalar env m old new true st = _
  unfold alter_field_scalar
  rw [hot, hnt]
  show runSegments st (afSegments env m.db_table old new true ot nt) = _
  unfold afSegments
  rw [afDropUnique_strict_error env m.db_table old new hu hnu hcount]
  rfl

/-- A unique field on a column with no introspected constraints. -/
def uniqOldX : Field := { plainFieldX with unique := true, column := "nocol" }

/-- The same field with uniqueness removed. -/
def uniqNewX : Field := { plainFieldX with unique := false, column := "nocol" }

theorem c8_strict_unique_wrong_count_witness :
    alter_field c9Env modelX (.scalar uniqOldX) (.scalar uniqNewX) true
      (startSession true) =
      (startSession true, some (.wrongCount .unique
        (constraint_names c9Env modelX.db_table (some [uniqOldX.column])
          (some true) none none none none).length)) :=
  c8_strict_unique_wrong_count c9Env modelX uniqOldX uniqNewX (startSession true)
    "integer" "integer" rfl rfl rfl rfl (by decide)

/-! ## C1: type + uniqueness + FK transition ordering -/

/-- Is the entry a `DROP CONSTRAINT` of a foreign key? -/
def isDeleteFkE (e : TraceEntry) : Bool :=
  match e.1 with
  | .deleteFk _ _ => true
  | _ => false

/-- Is the entry a `DROP CONSTRAINT` of a unique constraint? -/
def isDeleteUniqueE (e : TraceEntry) : Bool :=
  match e.1 with
  | .deleteUnique _ _ => true
  | _ => false

/-- Is the entry an `ADD CONSTRAINT ... FOREIGN KEY`? -/
def isCreateFkE (e : TraceEntry) : Bool :=
  match e.1 with
  | .createFk _ _ _ _ _ => true
  | _ => false

/-- Is the entry an `ADD CONSTRAINT ... PRIMARY KEY`? -/
def isCreatePkE (e : TraceEntry) : Bool :=
  match e.1 with
  | .createPk _ _ _ => true
  | _ => false

/-- Is the entry a `CREATE INDEX`? -/
def isCreateIndexE (e : TraceEntry) : Bool :=
  match e.1 with
  | .createIndex _ _ _ _ => true
  | _ => false

/-- C1 (amended): in collect mode, for an `alter_field` that changes the
column type, removes uniqueness and carries a foreign key on both sides,
the emitted sequence is exactly: drop the unique constraint, **then**
drop the FK constraint (the source drops unique before FK, not FK before
unique), then the type-altering `ALTER TABLE`, and the replacement FK
only after the type change. -/
theorem c1_transition_drops_unique_then_fk_then_type (env : DbEnv) (m : Model)
    (old new : Field) (strict : Bool) (st : EditorState) (ot nt u k : String) (r' : Rel)
    (hot : old.db_type = some ot) (hnt : new.db_type = some nt) (hty : ot ≠ nt)
    (hu : old.unique = true) (hnu : new.unique = false)
    (hrel : old.rel.isSome = true) (hrel' : new.rel = some r')
    (hpk : old.primary_key = false) (hpk' : new.primary_key = false)
    (hcol : old.column = new.column) (hnull : old.null = new.null)
    (hidx : old.db_index = new.db_index) (hchk : old.db_check = new.db_check)
    (hdef : effective_default old = effective_default new)
    (huniq : constraint_names env m.db_table (some [old.column])
      (some true) none none none none = [u])
    (hfk : constraint_names env m.db_table (some [old.column])
      none none none (some true) none = [k])
    (hcollect : st.collect_sql = true) :
    alter_field env m (.scalar old) (.scalar new) strict st =
      ({ st with collected_sql := st.collected_sql ++
          [(Stmt.deleteUnique (env.quote_name m.db_table) u, []),
           (Stmt.deleteFk (env.quote_name m.db_table) k, []),
           (Stmt.alterColumn (env.quote_name m.db_table)
             [ColChange.typeChange (env.quote_name new.column) nt], []),
           (Stmt.createFk (env.quote_name m.db_table)
             (create_index_name env m.db_table [new.column] "_fk")
             (env.quote_name new.column) (env.quote_name r'.to_table)
             (env.quote_name r'.to_column), [])] }, none) := by
  have s1 : afDropUnique env m.db_table old new strict =
      .ok [(Stmt.deleteUnique (env.quote_name m.db_table) u, [])] := by
    unfold afDropUnique
    rw [if_pos ⟨hu, Or.inl (by simp [hnu])⟩]
    simp only [huniq]
    rw [if_neg]
    · rfl
    · rintro ⟨_, h⟩; exact h rfl
  have s2 : afDropIndex env m.db_table old new strict = .ok [] := by
    unfold afDropIndex
    rw [if_neg]
    rintro ⟨_, _, h, _⟩
    exact h hu
  have s3 : afDropFk env m.db_table old new strict =
      .ok [(Stmt.deleteFk (env.quote_name m.db_table) k, [])] := by
    unfold afDropFk
    rw [if_pos hrel]
    simp only [hfk]
    rw [if_neg]
    · rfl
    · rintro ⟨_, h⟩; exact h rfl
  have s4 : afDropIncomingFks env old new ot nt = [] := by
    unfold afDropIncomingFks
    rw [if_neg]
    rintro ⟨h, _, _⟩
    simp [hpk] at h
  have s5 : afDropCheck env m.db_table old new strict = .ok [] := by
    unfold afDropCheck
    rw [if_neg]
    rintro ⟨h, _⟩
    exact h hchk
  have s6 : afRename env m.db_table old new = [] := by
    unfold afRename
    rw [if_neg]
    intro h
    exact h hcol
  have s7 : afActions env m.db_table old new ot nt =
      [(Stmt.alterColumn (env.quote_name m.db_table)
        [ColChange.typeChange (env.quote_name new.column) nt], [])] := by
    unfold afActions alter_column_type_sql
    rw [if_pos hty, if_neg (fun h => h hdef), if_neg (fun h => h hnull)]
    cases h : env.supports_combined_alters <;> simp [h]
  have s8 : afAddUnique env m.db_table old new = [] := by
    unfold afAddUnique
    rw [if_neg]
    rintro ⟨_, h⟩
    simp [hnu] at h
  have s9 : afAddIndex env m.db_table old new = [] := by
    unfold afAddIndex
    rw [if_neg]
    rintro ⟨h1, h2, _, _⟩
    rw [hidx] at h1
    exact h1 h2
  have s10 : afBecomePk env m.db_table old new strict = .ok [] := by
    unfold afBecomePk
    rw [if_neg]
    rintro ⟨_, h⟩
    simp [hpk'] at h
  have s11 : afRelUpdates env old new ot nt = [] := by
    unfold afRelUpdates afRelsToUpdate
    rw [if_neg, if_neg]
    · rfl
    · rintro ⟨_, h⟩; simp [hpk'] at h
    · rintro ⟨h, _, _⟩; simp [hpk] at h
  have s12 : afCreateFk env m.db_table new =
      [(Stmt.createFk (env.quote_name m.db_table)
        (create_index_name env m.db_table [new.column] "_fk")
        (env.quote_name new.column) (env.quote_name r'.to_table)
        (env.quote_name r'.to_column), [])] := by
    simp [afCreateFk, hrel']
  have s13 : afRebuildIncomingFks env m.db_table old new ot nt = [] := by
    unfold afRebuildIncomingFks
    rw [if_neg]
    rintro ⟨h, _, _⟩
    simp [hpk] at h
  have s14 : afAddCheck env m.db_table old new = [] := by
    unfold afAddCheck
    rw [if_neg]
    rintro ⟨h, _⟩
    exact h hchk
  show alter_field_scalar env m old new strict st = _
  unfold alter_field_scalar
  rw [hot, hnt]
  show runSegments st (afSegments env m.db_table old new strict ot nt) = _
  unfold afSegments
  rw [s1, s2, s3, s4, s5, s6, s7, s8, s9, s10, s11, s12, s13, s14]
  simp only [runSegments, appendEntries_append, appendEntries_nil, List.append_nil,
    List.nil_append, List.singleton_append, List.cons_append]
  unfold appendEntries
  rw [if_pos hcollect]

/-- An introspection environment with one unique and one FK constraint on
column `col` of any table. -/
def cex1Env : DbEnv :=
  { c9Env with get_constraints := fun _ =>
      [("uniq_col",
        { columns := ["col"], unique := true, primary_key := false,
          index := false, foreign_key := false, chk := false }),
       ("fk_col",
        { columns := ["col"], unique := false, primary_key := false,
          index := false, foreign_key := true, chk := false })] }

/-- The old field of the C1 scenario: unique FK column of type integer. -/
def c1OldX : Field := { fkFieldX with unique := true }

/-- The new field: uniqueness removed, type changed to bigint, FK kept. -/
def c1NewX : Field := { fkFieldX with unique := false, db_type := some "bigint" }

/-- C1 counterexample: in the claimed scenario the FK drop does **not**
precede the unique drop — the unique constraint is dropped first (both
drops are present in the collected output). -/
theorem c1_counterexample_fk_not_dropped_first :
    ¬((alter_field cex1Env modelX (.scalar c1OldX) (.scalar c1NewX) false
        (startSession true)).1.collected_sql.findIdx isDeleteFkE <
      (alter_field cex1Env modelX (.scalar c1OldX) (.scalar c1NewX) false
        (startSession true)).1.collected_sql.findIdx isDeleteUniqueE) ∧
    (alter_field cex1Env modelX (.scalar c1OldX) (.scalar c1NewX) false
      (startSession true)).1.collected_sql.any isDeleteFkE = true ∧
    (alter_field cex1Env modelX (.scalar c1OldX) (.scalar c1NewX) false
      (startSession true)).1.collected_sql.any isDeleteUniqueE = true := by
  refine ⟨by decide, by decide, by decide⟩

theorem c1_transition_drops_unique_then_fk_then_type_witness :
    alter_field cex1Env modelX (.scalar c1OldX) (.scalar c1NewX) false
      (startSession true) =
      ({ startSession true with collected_sql := (startSession true).collected_sql ++
          [(Stmt.deleteUnique (cex1Env.quote_name modelX.db_table) "uniq_col", []),
           (Stmt.deleteFk (cex1Env.quote_name modelX.db_table) "fk_col", []),
           (Stmt.alterColumn (cex1Env.quote_name modelX.db_table)
             [ColChange.typeChange (cex1Env.quote_name c1NewX.column) "bigint"], []),
           (Stmt.createFk (cex1Env.quote_name modelX.db_table)
             (create_index_name cex1Env modelX.db_table [c1NewX.column] "_fk")
             (cex1Env.quote_name c1NewX.column)
             (cex1Env.quote_name (Rel.mk "other" "id").to_table)
             (cex1Env.quote_name (Rel.mk "other" "id").to_column), [])] }, none) :=
  c1_transition_drops_unique_then_fk_then_type cex1Env modelX c1OldX c1NewX false
    (startSession true) "integer" "bigint" "uniq_col" "fk_col" (Rel.mk "other" "id")
    rfl rfl (by decide) rfl rfl rfl rfl rfl rfl rfl rfl rfl rfl rfl rfl rfl rfl

/-! ## C3: PK type change with incoming foreign keys -/

/-- The statement sequence `alter_field` emits for a primary key whose
type changes while other tables reference it: drop each introspected
incoming FK, re-type the PK column, re-type each referencing column,
re-create each incoming FK.  No PK-constraint statement appears. -/
def c3Suffix (env : DbEnv) (tbl : String) (new : Field) (nt : String) : List TraceEntry :=
  ((new.related_objects.map fun r =>
      (constraint_names env r.model_table (some [r.field_column])
        none none none (some true) none).map fun n =>
          (Stmt.deleteFk (env.quote_name r.model_table) n, ([] : List String))).flatten) ++
  [(Stmt.alterColumn (env.quote_name tbl)
      [ColChange.typeChange (env.quote_name new.column) nt], [])] ++
  (new.related_objects.map fun r =>
    (Stmt.alterColumn (env.quote_name r.model_table)
      [ColChange.typeChange (env.quote_name r.field_column) r.field_type], [])) ++
  (new.related_objects.map fun r =>
    (Stmt.createFk (env.quote_name r.model_table)
      (create_index_name env r.model_table [r.field_column] "_fk")
      (env.quote_name r.field_column) (env.quote_name tbl)
      (env.quote_name new.column), []))

/-- C3 (amended): when both sides are primary keys and the type differs,
the emitted sequence is: drop each incoming foreign FK, alter the PK
column's type, **re-type each referencing column**, then recreate each
incoming FK — the PK constraint itself is *not* dropped or recreated
(that happens only when a field newly becomes the PK). -/
theorem c3_pk_type_change_sequence (env : DbEnv) (m : Model) (old new : Field)
    (strict : Bool) (st : EditorState) (ot nt : String)
    (hot : old.db_type = some ot) (hnt : new.db_type = some nt) (hty : ot ≠ nt)
    (hpk : old.primary_key = true) (hpk' : new.primary_key = true)
    (hu : old.unique = true) (hnu : new.unique = true)
    (hrelo : old.rel = none) (hreln : new.rel = none)
    (hcol : old.column = new.column) (hnull : old.null = new.null)
    (hchk : old.db_check = new.db_check)
    (hdef : effective_default old = effective_default new) :
    alter_field env m (.scalar old) (.scalar new) strict st =
      (appendEntries st (c3Suffix env m.db_table new nt), none) ∧
    ∀ tb nm cl ps, (Stmt.createPk tb nm cl, ps) ∉ c3Suffix env m.db_table new nt := by
  constructor
  · have s1 : afDropUnique env m.db_table old new strict = .ok [] := by
      unfold afDropUnique
      rw [if_neg]
      rintro ⟨_, h | ⟨h3, _⟩⟩
      · exact h hnu
      · exact h3 hpk
    have s2 : afDropIndex env m.db_table old new strict = .ok [] := by
      unfold afDropIndex
      rw [if_neg]
      rintro ⟨_, _, h, _⟩
      exact h hu
    have s3 : afDropFk env m.db_table old new strict = .ok [] := by
      simp [afDropFk, hrelo]
    have s4 : afDropIncomingFks env old new ot nt =
        ((new.related_objects.map fun r =>
          (constraint_names env r.model_table (some [r.field_column])
            none none none (some true) none).map fun n =>
              (Stmt.deleteFk (env.quote_name r.model_table) n,
                ([] : List String))).flatten) := by
      unfold afDropIncomingFks
      rw [if_pos ⟨hpk, hpk', hty⟩]
    have s5 : afDropCheck env m.db_table old new strict = .ok [] := by
      unfold afDropCheck
      rw [if_neg]
      rintro ⟨h, _⟩
      exact h hchk
    have s6 : afRename env m.db_table old new = [] := by
      unfold afRename
      rw [if_neg]
      intro h
      exact h hcol
    have s7 : afActions env m.db_table old new ot nt =
        [(Stmt.alterColumn (env.quote_name m.db_table)
          [ColChange.typeChange (env.quote_name new.column) nt], [])] := by
      unfold afActions alter_column_type_sql
      rw [if_pos hty, if_neg (fun h => h hdef), if_neg (fun h => h hnull)]
      cases h : env.supports_combined_alters <;> simp [h]
    have s8 : afAddUnique env m.db_table old new = [] := by
      unfold afAddUnique
      rw [if_neg]
      rintro ⟨h, _⟩
      exact h hu
    have s9 : afAddIndex env m.db_table old new = [] := by
      unfold afAddIndex
      rw [if_neg]
      rintro ⟨_, _, h, _⟩
      exact h hnu
    have s10 : afBecomePk env m.db_table old new strict = .ok [] := by
      unfold afBecomePk
      rw [if_neg]
      rintro ⟨h, _⟩
      exact h hpk
    have s11 : afRelUpdates env old new ot nt =
        new.related_objects.map fun r =>
          (Stmt.alterColumn (env.quote_name r.model_table)
            [ColChange.typeChange (env.quote_name r.field_column) r.field_type], []) := by
      unfold afRelUpdates afRelsToUpdate
      rw [if_pos ⟨hpk, hpk', hty⟩, if_neg]
      · rw [List.append_nil]
      · rintro ⟨h, _⟩
        exact h hpk
    have s12 : afCreateFk env m.db_table new = [] := by
      simp [afCreateFk, hreln]
    have s13 : afRebuildIncomingFks env m.db_table old new ot nt =
        new.related_objects.map fun r =>
          (Stmt.createFk (env.quote_name r.model_table)
            (create_index_name env r.model_table [r.field_column] "_fk")
            (env.quote_name r.field_column) (env.quote_name m.db_table)
            (env.quote_name new.column), []) := by
      unfold afRebuildIncomingFks
      rw [if_pos ⟨hpk, hpk', hty⟩]
    have s14 : afAddCheck env m.db_table old new = [] := by
      unfold afAddCheck
      rw [if_neg]
      rintro ⟨h, _⟩
      exact h hchk
    show alter_field_scalar env m old new strict st = _
    unfold alter_field_scalar
    rw [hot, hnt]
    show runSegments st (afSegments env m.db_table old new strict ot nt) = _
    unfold afSegments
    rw [s1, s2, s3, s4, s5, s6, s7, s8, s9, s10, s11, s12, s13, s14]
    simp only [runSegments, appendEntries_append, appendEntries_nil, List.append_nil,
      List.nil_append, List.singleton_append, List.cons_append]
    unfold c3Suffix
    simp [List.append_assoc]
  · intro tb nm cl ps hmem
    unfold c3Suffix at hmem
    simp only [List.mem_append, List.mem_flatten, List.mem_map, List.mem_singleton] at hmem
    rcases hmem with ((⟨l, ⟨r, _, hl⟩, hml⟩ | h) | ⟨r, _, h⟩) | ⟨r, _, h⟩
    · subst hl
      simp only [List.mem_map] at hml
      obtain ⟨n, _, h⟩ := hml
      exact Stmt.noConfusion (congrArg Prod.fst h)
    · exact Stmt.noConfusion (congrArg Prod.fst h)
    · exact Stmt.noConfusion (congrArg Prod.fst h)
    · exact Stmt.noConfusion (congrArg Prod.fst h)

/-- Two incoming FK constraints, one on each referencing table. -/
def cex3Env : DbEnv :=
  { c9Env with get_constraints := fun t =>
      if t = "r1" then
        [("fk1", { columns := ["c1"], unique := false, primary_key := false,
                   index := false, foreign_key := true, chk := false })]
      else if t = "r2" then
        [("fk2", { columns := ["c2"], unique := false, primary_key := false,
                   index := false, foreign_key := true, chk := false })]
      else [] }

/-- The PK field before the type change, referenced by two tables. -/
def c3OldX : Field :=
  { plainFieldX with
    column := "id"
    unique := true
    primary_key := true
    related_objects := [⟨"r1", "c1", "integer"⟩, ⟨"r2", "c2", "integer"⟩] }

/-- The PK field after the type change to bigint. -/
def c3NewX : Field := { c3OldX with db_type := some "bigint" }

/-- The one-field model carrying the PK. -/
def model3 : Model := .mk "t" "" [c3OldX] [] [] [] []

/-- C3 counterexample: in the claimed scenario the emitted sequence
contains no `ADD CONSTRAINT ... PRIMARY KEY` at all (while the incoming
FKs are indeed recreated), so the claimed fixed order "drop FKs, alter
type, recreate PK constraint, recreate FKs" does not happen. -/
theorem c3_counterexample_no_pk_recreate :
    (alter_field cex3Env model3 (.scalar c3OldX) (.scalar c3NewX) false
      (startSession true)).1.collected_sql.any isCreatePkE = false ∧
    (alter_field cex3Env model3 (.scalar c3OldX) (.scalar c3NewX) false
      (startSession true)).1.collected_sql.any isCreateFkE = true := by
  exact ⟨by decide, by decide⟩

theorem c3_pk_type_change_sequence_witness :
    (alter_field cex3Env model3 (.scalar c3OldX) (.scalar c3NewX) false
      (startSession true) =
      (appendEntries (startSession true) (c3Suffix cex3Env model3.db_table c3NewX "bigint"),
        none)) ∧
    ∀ tb nm cl ps,
      (Stmt.createPk tb nm cl, ps) ∉ c3Suffix cex3Env model3.db_table c3NewX "bigint" :=
  c3_pk_type_change_sequence cex3Env model3 c3OldX c3NewX false (startSession true)
    "integer" "bigint" rfl rfl (by decide) rfl rfl rfl rfl rfl rfl rfl rfl rfl rfl

/-! ## C2: `create_model` executes the table, defers indexes and FKs -/

/-- C2 (amended): for a model (without M2M fields or `index_together`)
holding an FK field and a separately indexed field, `create_model`
executes exactly the `CREATE TABLE` during the call; both the
FK-creation statement *and* the per-field index-creation statement are
appended to `deferred_sql` — the index is **not** executed before
end-of-session — and a clean session close executes the deferred
statements in insertion order after everything already traced. -/
theorem c2_create_model_defers_indexes_and_fks (env : DbEnv) (m : Model)
    (st : EditorState) (f g : Field) (tf tg : String) (r : Rel)
    (hm2m : m.local_many_to_many = []) (hitg : m.index_together = [])
    (hf : f ∈ m.local_fields) (hft : f.db_type = some tf) (hfr : f.rel = some r)
    (hsfk : env.supports_foreign_keys = true)
    (hg : g ∈ m.local_fields) (hgt : g.db_type = some tg)
    (hgi : g.db_index = true) (hgu : g.unique = false) :
    (create_model env m st).trace = st.trace ++ [cmTableEntry env m] ∧
    (create_model env m st).deferred_sql = st.deferred_sql ++ cmDeferred env m ∧
    Stmt.createFk (env.quote_name m.db_table)
        (create_index_name env m.db_table [f.column]
          ("_fk_" ++ r.to_table ++ "_" ++ r.to_column))
        (env.quote_name f.column) (env.quote_name r.to_table)
        (env.quote_name r.to_column)
      ∈ cmDeferred env m ∧
    Stmt.createIndex (create_index_name env m.db_table [g.column] "")
        (env.quote_name m.db_table) (env.quote_name g.column) ""
      ∈ cmDeferred env m ∧
    exitSession false (create_model env m st) =
      appendEntries (create_model env m st)
        ((create_model env m st).deferred_sql.map fun s => (s, [])) := by
  refine ⟨?_, ?_, ?_, ?_, exitSession_clean_eq _⟩
  · rw [create_model_eq, hm2m]
    show (appendEntries (deferStmts st (cmDeferred env m)) (cmImmediate env m)).trace = _
    rw [trace_appendEntries, trace_deferStmts]
    simp [cmImmediate, cmItgEntries, hitg]
  · rw [create_model_eq, hm2m]
    show (appendEntries (deferStmts st (cmDeferred env m)) (cmImmediate env m)).deferred_sql = _
    rw [deferred_appendEntries, deferred_deferStmts]
  · refine List.mem_flatten.mpr ⟨cmFieldDeferred env m.db_table f, ?_, ?_⟩
    · exact List.mem_map.mpr ⟨f, hf, by simp [hft]⟩
    · unfold cmFieldDeferred
      rw [hfr]
      simp [hsfk]
  · refine List.mem_flatten.mpr ⟨cmFieldDeferred env m.db_table g, ?_, ?_⟩
    · exact List.mem_map.mpr ⟨g, hg, by simp [hgt]⟩
    · unfold cmFieldDeferred
      rw [if_pos ⟨hgi, by simp [hgu]⟩]
      exact List.mem_append_left _
        (List.mem_append_left _ (List.mem_singleton.mpr rfl))

/-- A non-unique indexed field. -/
def idxFieldX : Field := { plainFieldX with db_index := true, column := "idxcol" }

/-- The C2 scenario model: one FK field, one indexed field. -/
def model2 : Model := .mk "emp" "" [fkFieldX, idxFieldX] [] [] [] []

/-- C2 counterexample: the per-field index-creation statement is *not*
executed between `CREATE TABLE` and end-of-session — nothing in the
collected output of the `create_model` call is a `CREATE INDEX`; it only
appears after the clean session close flushes `deferred_sql`. -/
theorem c2_counterexample_index_deferred_to_close :
    (create_model c9Env model2 (startSession true)).collected_sql.any
      isCreateIndexE = false ∧
    (exitSession false (create_model c9Env model2 (startSession true))).collected_sql.any
      isCreateIndexE = true := by
  exact ⟨by decide, by decide⟩

theorem c2_create_model_defers_indexes_and_fks_witness :
    (create_model c9Env model2 (startSession true)).trace =
      (startSession true).trace ++ [cmTableEntry c9Env model2] ∧
    (create_model c9Env model2 (startSession true)).deferred_sql =
      (startSession true).deferred_sql ++ cmDeferred c9Env model2 ∧
    Stmt.createFk (c9Env.quote_name model2.db_table)
        (create_index_name c9Env model2.db_table [fkFieldX.column]
          ("_fk_" ++ (Rel.mk "other" "id").to_table ++ "_" ++
            (Rel.mk "other" "id").to_column))
        (c9Env.quote_name fkFieldX.column)
        (c9Env.quote_name (Rel.mk "other" "id").to_table)
        (c9Env.quote_name (Rel.mk "other" "id").to_column)
      ∈ cmDeferred c9Env model2 ∧
    Stmt.createIndex (create_index_name c9Env model2.db_table [idxFieldX.column] "")
        (c9Env.quote_name model2.db_table) (c9Env.quote_name idxFieldX.column) ""
      ∈ cmDeferred c9Env model2 ∧
    exitSession false (create_model c9Env model2 (startSession true)) =
      appendEntries (create_model c9Env model2 (startSession true))
        ((create_model c9Env model2 (startSession true)).deferred_sql.map
          fun s => (s, [])) :=
  c2_create_model_defers_indexes_and_fks c9Env model2 (startSession true)
    fkFieldX idxFieldX "integer" "integer" (Rel.mk "other" "id")
    rfl rfl (by decide) rfl rfl rfl (by decide) rfl rfl rfl

end DjangoSchema
